import Mathlib

/-!
Shallow embedding of the jvm-pybind native bridge (src/jvm/jni.py,
src/jvm/jvm.py, src/jvm/typeconv.py, src/jvm/proxy.py) and proofs about it.

Python values that flow through the bridge are modelled by small inductive
types; the JNI environment (the opaque libjvm function table) is modelled by
records of abstract operations, each fallible operation returning `Except`.
Fallible Python code paths (raise / try / except) become `Except` values with
the literal message strings of the source; truthiness tests on handles are
modelled via `Option` (`none` = Python `None` / NULL handle) or explicit
nullity predicates.
-/

namespace JvmPybind

/-! ### jni.py: `jvalue` cells and `_convert_args_to_jvalue_array` -/

/-- A populated `jvalue` union cell (jni.py lines 37-58).  The source
`memset`s every cell to zero and then writes exactly one member, so a cell is
modelled as a record of all union members with zero defaults; the member the
marshaling loop writes is the only field that can differ from zero.  The
payloads of the floating members are carried opaquely as `Int` bit patterns:
no floating-point arithmetic is performed by the marshaling code. -/
structure JValueCell where
  z : Bool := false
  b : Int := 0
  c : Int := 0
  s : Int := 0
  i : Int := 0
  j : Int := 0
  f : Int := 0
  d : Int := 0
  l : Nat := 0
  deriving Repr, DecidableEq

/-- The all-zero cell produced by `ctypes.memset(..., 0, sizeof(jvalue))`. -/
def JValueCell.zero : JValueCell := {}

/-- A Python argument as seen by `_convert_args_to_jvalue_array`: the
`isinstance` branches of the loop distinguish `bool`, `int`, `float`, and
everything else; "everything else" is either a ctypes value carrying a native
handle (`hasattr(arg, "value")`) or `None`.  Float payloads are opaque. -/
inductive PyArg where
  | pyBool (bv : Bool)
  | pyInt (n : Int)
  | pyFloat (x : Int)
  | handle (h : Nat)
  | pyNone
  deriving Repr, DecidableEq

/-- Wrap to a signed 64-bit value, as the `jlong(arg)` ctypes conversion
does for an out-of-range Python int. -/
def wrap64 (n : Int) : Int := (n + 2 ^ 63) % 2 ^ 64 - 2 ^ 63

/-- One iteration of the population loop of `_convert_args_to_jvalue_array`
(jni.py lines 76-92): zero the cell, then write the member selected by the
argument's runtime type. -/
def populateCell (arg : PyArg) : JValueCell :=
  let cell := JValueCell.zero
  match arg with
  | .pyBool bv => { cell with z := bv }
  | .pyInt n =>
      if -(2 ^ 31) ≤ n ∧ n ≤ 2 ^ 31 - 1 then { cell with i := n }
      else { cell with j := wrap64 n }
  | .pyFloat x => { cell with d := x }
  | .handle h => { cell with l := h }
  | .pyNone => { cell with l := 0 }

/-- `_convert_args_to_jvalue_array` (jni.py lines 60-94): an empty tuple
yields `(None, 0)`; otherwise a cell array of the same length, one populated
cell per argument in order.  (The ARM64 realignment step copies into an
equally-sized zeroed array before population and does not change the
populated contents; it is not modelled.) -/
def convertArgsToJvalueArray (args : List PyArg) : Option (List JValueCell) × Nat :=
  if args.isEmpty then (none, 0)
  else (some (args.map populateCell), args.length)

/-! ### proxy.py: signature encoding -/

/-- The `PRIM` table of `_java_type_to_sig` (proxy.py lines 197-207). -/
def PRIM : List (String × String) :=
  [("int", "I"), ("long", "J"), ("float", "F"), ("double", "D"),
   ("boolean", "Z"), ("void", "V"), ("byte", "B"), ("char", "C"),
   ("short", "S")]

/-- Python's `s.replace(".", "/")`: for a single-character pattern and
replacement this is exactly a character map over the string. -/
def dotsToSlashes (s : String) : String :=
  (s.toList.map (fun ch => if ch = '.' then '/' else ch)).asString

/-- `_java_type_to_sig` (proxy.py lines 195-210). -/
def javaTypeToSig (jtype : String) : String :=
  match PRIM.lookup jtype with
  | some code => code
  | none => "L" ++ dotsToSlashes jtype ++ ";"

/-- `JavaMethod` descriptor (jvm.py): name, parameter type names in
declaration order, return type name, static flag. -/
structure JavaMethod where
  name : String
  parameters : List String
  return_type : String
  is_static : Bool
  deriving Repr, DecidableEq

/-- `_build_sig` (proxy.py lines 213-217). -/
def buildSig (method : JavaMethod) : String :=
  "(" ++ String.join (method.parameters.map javaTypeToSig) ++ ")"
    ++ javaTypeToSig method.return_type

/-! ### typeconv.py: Python values and the abstract JNI environment -/

/-- A Python value flowing through `to_java` / `to_python` (typeconv.py).
`H` is the type of native JNI handles.  `vcontainer` models the
`dict`/`list`/`tuple`/`set` pass-through branch (only its truthiness
matters); `vproxy` models an `ObjectProxy` wrapping a value. -/
inductive PyVal (H : Type) where
  | vstr (s : String)
  | vbool (bv : Bool)
  | vint (n : Int)
  | vnone
  | vhandle (h : H)
  | vcontainer (nonempty : Bool)
  | vproxy (inner : PyVal H)
  deriving Repr, DecidableEq

/-- Python truthiness of a `PyVal` (`if not jobject`): empty string, `False`,
`0`, `None`, a NULL ctypes handle and an empty container are falsy;
`ObjectProxy` instances are always truthy. -/
def PyVal.truthy {H : Type} (isNullH : H → Bool) : PyVal H → Bool
  | .vstr s => !(s == "")
  | .vbool bv => bv
  | .vint n => !(n == 0)
  | .vnone => false
  | .vhandle h => !(isNullH h)
  | .vcontainer nonempty => nonempty
  | .vproxy _ => true

/-- The `isinstance(jobject, (dict, list, tuple, set))` test
(typeconv.py line 33). -/
def PyVal.isContainer {H : Type} : PyVal H → Bool
  | .vcontainer _ => true
  | _ => false

/-- The `isinstance(jobject, (int, ctypes.c_void_p)) and jobject != 0` test
(typeconv.py line 42).  A Python `bool` is an `int` instance; a ctypes
`c_void_p` never compares equal to the int `0`, so any `vhandle` passes. -/
def PyVal.isIntLikeNonzero {H : Type} : PyVal H → Bool
  | .vint n => !(n == 0)
  | .vbool bv => bv
  | .vhandle _ => true
  | _ => false

/-- `Optional` return of a JNI call as a `PyVal` (`None` when the native
call returned NULL). -/
def optToVal {H : Type} : Option H → PyVal H
  | some h => .vhandle h
  | none => .vnone

/-- How `_call_object_method_with_signature_direct`-style errors are split by
`to_python`'s `except (TypeError, ValueError, ctypes.ArgumentError)` clause:
`typeLike` errors are caught there, any `other` exception propagates. -/
inductive GocErr where
  | typeLike
  | other (e : String)
  deriving Repr, DecidableEq

/-- Abstract JNI environment as used by typeconv.py: one field per
`jvm.jni.*` / `jvm._find_class` operation the module calls.  `H` is the
handle type, `M` the method-ID type.  Fallible operations return `Except`:
`.error` is a raised Python exception, `.ok none` a NULL result. -/
structure TCEnv (H M : Type) where
  isNullH : H → Bool
  newStringUTF : String → Except String (Option H)
  findClass : String → Except String H
  getStaticMethodID : H → String → String → Except String (Option M)
  callStaticObjectMethod1 : H → M → PyVal H → Except String (Option H)
  getObjectClass : PyVal H → Except GocErr H
  isInstanceOf : PyVal H → H → Bool
  getStringUTFChars : PyVal H → Except String (Option String)
  getMethodID : H → String → String → Except String (Option M)
  callBooleanMethod : PyVal H → M → Except String Bool
  callIntMethod : PyVal H → M → Except String Int

/-- `to_java` (typeconv.py lines 9-25): strings become native UTF strings,
booleans are boxed through `Boolean.valueOf`, ints through
`Integer.valueOf`, every other value passes through unchanged. -/
def toJava {H M : Type} (env : TCEnv H M) (value : PyVal H) : Except String (PyVal H) :=
  match value with
  | .vstr s =>
      match env.newStringUTF s with
      | .error e => .error e
      | .ok r => .ok (optToVal r)
  | .vbool bv =>
      match env.findClass "java/lang/Boolean" with
      | .error e => .error e
      | .ok boolCls =>
          match env.getStaticMethodID boolCls "valueOf" "(Z)Ljava/lang/Boolean;" with
          | .error e => .error e
          | .ok none => .error "Could not find Boolean.valueOf method"
          | .ok (some mid) =>
              match env.callStaticObjectMethod1 boolCls mid (.vbool bv) with
              | .error e => .error e
              | .ok r => .ok (optToVal r)
  | .vint n =>
      match env.findClass "java/lang/Integer" with
      | .error e => .error e
      | .ok intCls =>
          match env.getStaticMethodID intCls "valueOf" "(I)Ljava/lang/Integer;" with
          | .error e => .error e
          | .ok none => .error "Could not find Integer.valueOf method"
          | .ok (some mid) =>
              match env.callStaticObjectMethod1 intCls mid (.vint n) with
              | .error e => .error e
              | .ok r => .ok (optToVal r)
  | other => .ok other

/-- `to_python` (typeconv.py lines 28-73): falsy handles become `None`,
host containers pass through, then an ordered `IsInstanceOf` chain against
String / Boolean / Integer unwraps the value, and anything else is wrapped
in an `ObjectProxy`.  A type-like failure of `GetObjectClass` on an
int-or-pointer-like value also yields an `ObjectProxy`. -/
def toPython {H M : Type} (env : TCEnv H M) (jobject : PyVal H) : Except String (PyVal H) :=
  if !(jobject.truthy env.isNullH) then .ok .vnone
  else if jobject.isContainer then .ok jobject
  else
    match env.getObjectClass jobject with
    | .error .typeLike =>
        if jobject.isIntLikeNonzero then .ok (.vproxy jobject) else .ok jobject
    | .error (.other e) => .error e
    | .ok _ =>
        match env.findClass "java/lang/String" with
        | .error e => .error e
        | .ok strCls =>
            if env.isInstanceOf jobject strCls then
              match env.getStringUTFChars jobject with
              | .error e => .error e
              | .ok (some pystr) => .ok (.vstr (if pystr == "" then "" else pystr))
              | .ok none => .ok (.vstr "")
            else
              match env.findClass "java/lang/Boolean" with
              | .error e => .error e
              | .ok boolCls =>
                  if env.isInstanceOf jobject boolCls then
                    match env.getMethodID boolCls "booleanValue" "()Z" with
                    | .error e => .error e
                    | .ok none => .error "Could not find Boolean.booleanValue method"
                    | .ok (some mid) =>
                        match env.callBooleanMethod jobject mid with
                        | .error e => .error e
                        | .ok bv => .ok (.vbool bv)
                  else
                    match env.findClass "java/lang/Integer" with
                    | .error e => .error e
                    | .ok intCls =>
                        if env.isInstanceOf jobject intCls then
                          match env.getMethodID intCls "intValue" "()I" with
                          | .error e => .error e
                          | .ok none => .error "Could not find Integer.intValue method"
                          | .ok (some mid) =>
                              match env.callIntMethod jobject mid with
                              | .error e => .error e
                              | .ok n => .ok (.vint n)
                        else .ok (.vproxy jobject)

/-! ### proxy.py: package / object attribute resolution -/

/-- Result of `PackageProxy.__getattr__` (proxy.py lines 16-22). -/
inductive ProxyResult where
  | classProxy (fqcn : String)
  | packageProxy (pkg : String)
  deriving Repr, DecidableEq

/-- `PackageProxy.__getattr__` (proxy.py lines 16-22): build the candidate
fully-qualified name, try `find_class` on its slash form; success yields a
`ClassProxy`, any exception yields a `PackageProxy` for the same name.
`findClassOk name` abstracts whether `jvm.find_class name` succeeds. -/
def packageProxyGetattr (findClassOk : String → Bool) (pkg item : String) : ProxyResult :=
  let fqcn := pkg ++ "." ++ item
  if findClassOk (dotsToSlashes fqcn) then .classProxy fqcn
  else .packageProxy fqcn

/-- `ObjectProxy.__getattr__` (proxy.py lines 107-111): filter the reflected
descriptor's methods by name only; a nonempty match set yields an
`InstanceMethodProxy` bound to it, otherwise `AttributeError(item)`. -/
def objectProxyGetattr (methods : List JavaMethod) (item : String) :
    Except String (List JavaMethod) :=
  let matched := methods.filter (fun m => m.name == item)
  if !matched.isEmpty then .ok matched
  else .error item

/-! ### proxy.py: method invocation through the proxies -/

/-- `isinstance(arg, int)` on a `PyVal` (a Python `bool` is an `int`). -/
def PyVal.isPyInt {H : Type} : PyVal H → Bool
  | .vint _ => true
  | .vbool _ => true
  | _ => false

/-- `isinstance(arg, str)` on a `PyVal`. -/
def PyVal.isPyStr {H : Type} : PyVal H → Bool
  | .vstr _ => true
  | _ => false

/-- The abstract JNI environment for proxy calls: the typeconv operations
plus the method-invocation operations `InstanceMethodProxy.__call__` and
`MethodProxy.__call__` use. -/
structure ProxyEnv (H M : Type) extends TCEnv H M where
  getObjectClassH : H → Except String (Option H)
  callVoidMethodN : H → M → List (PyVal H) → Except String Unit
  callObjectMethodN : H → M → List (PyVal H) → Except String (Option H)
  callStaticObjectMethodN : H → M → List (PyVal H) → Except String (Option H)

/-- The post-selection tail of `InstanceMethodProxy.__call__` (proxy.py
lines 138-153): build the signature, resolve the method ID from the
receiver's runtime class, dispatch void/object, and wrap any failure with
the chosen candidate's name. -/
def instanceInvokeSelected {H M : Type} (env : ProxyEnv H M) (jobject : H)
    (cand : JavaMethod) (jArgs : List (PyVal H)) : Except String (PyVal H) :=
  let wrap := fun e => "Failed to call method " ++ cand.name ++ ": " ++ e
  match env.getObjectClassH jobject with
  | .error e => .error (wrap e)
  | .ok none => .error (wrap "clazz must not be NULL")
  | .ok (some objClass) =>
      match env.getMethodID objClass cand.name (buildSig cand) with
      | .error e => .error (wrap e)
      | .ok none => .error (wrap ("MethodID resolve failed for " ++ cand.name))
      | .ok (some mid) =>
          if cand.return_type == "void" then
            match env.callVoidMethodN jobject mid jArgs with
            | .error e => .error (wrap e)
            | .ok _ => .ok .vnone
          else
            match env.callObjectMethodN jobject mid jArgs with
            | .error e => .error (wrap e)
            | .ok res =>
                match toPython env.toTCEnv (optToVal res) with
                | .error e => .error (wrap e)
                | .ok v => .ok v

/-- `InstanceMethodProxy.__call__` (proxy.py lines 125-153): convert all
arguments with `to_java`, pick the first overload whose parameter count
equals the converted-argument count, and invoke it; failures before a
candidate is chosen are wrapped with the name "unknown". -/
def instanceMethodCall {H M : Type} (env : ProxyEnv H M) (jobject : H)
    (overloads : List JavaMethod) (args : List (PyVal H)) : Except String (PyVal H) :=
  match args.mapM (toJava env.toTCEnv) with
  | .error e => .error ("Failed to call method unknown: " ++ e)
  | .ok jArgs =>
      match overloads.find? (fun o => o.parameters.length == jArgs.length) with
      | none =>
          .error ("Failed to call method unknown: No matching method found for "
            ++ toString jArgs.length ++ " arguments")
      | some cand => instanceInvokeSelected env jobject cand jArgs

/-- `matches_signature` inside `MethodProxy.__call__` (proxy.py lines
171-179): arity must match the converted arguments, and each `int` /
`java.lang.String` declared parameter position must receive a host int /
str (checked against the original arguments). -/
def matchesSignature {H : Type} (overload : JavaMethod) (args jArgs : List (PyVal H)) : Bool :=
  if overload.parameters.length != jArgs.length then false
  else (overload.parameters.zip args).all fun pa =>
    if pa.1 == "int" && !pa.2.isPyInt then false
    else if pa.1 == "java.lang.String" && !pa.2.isPyStr then false
    else true

/-- Error raised out of `MethodProxy.__call__`: a bare `StopIteration` from
the defaultless `next(...)`, or an ordinary raised exception. -/
inductive SErr where
  | stopIteration
  | raised (msg : String)
  deriving Repr, DecidableEq

/-- The post-selection tail of `MethodProxy.__call__` (proxy.py lines
182-188); there is no wrapping `try`/`except` on the static path. -/
def staticInvokeSelected {H M : Type} (env : ProxyEnv H M) (jclass : H)
    (cand : JavaMethod) (jArgs : List (PyVal H)) : Except SErr (PyVal H) :=
  match env.getStaticMethodID jclass cand.name (buildSig cand) with
  | .error e => .error (.raised e)
  | .ok none => .error (.raised "MethodID resolve failed")
  | .ok (some mid) =>
      match env.callStaticObjectMethodN jclass mid jArgs with
      | .error e => .error (.raised e)
      | .ok res =>
          match toPython env.toTCEnv (optToVal res) with
          | .error e => .error (.raised e)
          | .ok v => .ok v

/-- `MethodProxy.__call__` (proxy.py lines 168-188): convert the arguments,
then `next(o for o in overloads if matches_signature(o, j_args))` — with no
default, so an empty match raises `StopIteration`. -/
def staticMethodCall {H M : Type} (env : ProxyEnv H M) (jclass : H)
    (overloads : List JavaMethod) (args : List (PyVal H)) : Except SErr (PyVal H) :=
  match args.mapM (toJava env.toTCEnv) with
  | .error e => .error (.raised e)
  | .ok jArgs =>
      match overloads.find? (fun o => matchesSignature o args jArgs) with
      | none => .error .stopIteration
      | some cand => staticInvokeSelected env jclass cand jArgs

/-! ### jvm.py: class cache, string extraction, shutdown -/

/-- Abstract JNI operations used by `JVM._find_class` (jvm.py 130-153). -/
structure FindEnv (H : Type) where
  findClassJNI : String → Except String (Option H)
  newGlobalRef : H → Except String (Option H)

/-- Python dict assignment `cache[name] = g` on an association list:
replace an existing binding, otherwise append. -/
def cacheInsert {H : Type} (cache : List (String × H)) (name : String) (g : H) :
    List (String × H) :=
  if cache.any (fun p => p.1 == name) then
    cache.map (fun p => if p.1 == name then (name, g) else p)
  else cache ++ [(name, g)]

/-- `JVM._find_class` (jvm.py lines 130-153): cache hit returns the cached
global reference; on a miss, a NULL lookup raises `JNIException` (re-wrapped
by the function's own `except` clause), a successful lookup is promoted to a
global reference and cached, and a failed promotion falls back to returning
the local reference without caching it. -/
def findClassCached {H : Type} (env : FindEnv H) (cache : List (String × H))
    (name : String) : Except String H × List (String × H) :=
  match cache.lookup name with
  | some h => (.ok h, cache)
  | none =>
      match env.findClassJNI name with
      | .error e => (.error ("Failed to find class " ++ name ++ ": " ++ e), cache)
      | .ok none =>
          (.error ("Failed to find class " ++ name ++ ": Could not find class: " ++ name),
           cache)
      | .ok (some jclass) =>
          match env.newGlobalRef jclass with
          | .error e => (.error ("Failed to find class " ++ name ++ ": " ++ e), cache)
          | .ok (some g) => (.ok g, cacheInsert cache name g)
          | .ok none => (.ok jclass, cache)

/-- Abstract operations used by `JVM._get_string_utf_chars` and
`JVM._extract_method_name` (jvm.py 219-228 and 261-273). -/
structure StrEnv (H : Type) where
  getStringUTFChars : H → Except String (Option String)
  callGetName : H → Except String (Option H)

/-- `JVM._get_string_utf_chars` (jvm.py lines 219-228): NULL string handle
yields `""`, a `None` extraction yields `""`, and any raised exception is
swallowed into the sentinel `"get_error"`. -/
def jvmGetStringUTFChars {H : Type} (env : StrEnv H) (jstring : Option H) : String :=
  match jstring with
  | none => ""
  | some h =>
      match env.getStringUTFChars h with
      | .ok (some result) => result
      | .ok none => ""
      | .error _ => "get_error"

/-- `JVM._extract_method_name` (jvm.py lines 261-273): call `getName` via
reflection; a raised call or NULL name yields `"unknown_method"`, otherwise
the name string is decoded with `_get_string_utf_chars`. -/
def extractMethodName {H : Type} (env : StrEnv H) (methodObj : H) : String :=
  match env.callGetName methodObj with
  | .error _ => "unknown_method"
  | .ok none => "unknown_method"
  | .ok (some nameString) => jvmGetStringUTFChars env (some nameString)

/-- A local-reference frame event recorded by the scoped static call
(jni.py 634-654): a successful `PushLocalFrame(cap)`, or a
`PopLocalFrame(r)` carrying the value threaded through the pop. -/
inductive FrameEvent (H : Type) where
  | push (cap : Nat)
  | pop (r : Option H)
  deriving Repr, DecidableEq

/-- Abstract JNI operations used by `JNIHelper.CallStaticObjectMethod`
(jni.py 634-654): the push result code, string marshaling, the two
underlying call shapes, and the pop. -/
structure StaticCallEnv (H : Type) where
  pushLocalFrame : Nat → Int
  newStringUTF : String → Except String (Option H)
  callNoArgs : Except String (Option H)
  callWithArgs : List (PyVal H) → Except String (Option H)
  popLocalFrame : Option H → Option H

/-- `JNIHelper._convert_python_args_to_jni` (jni.py lines 656-667): strings
become fresh JNI strings (a NULL creation raises), everything else passes
through. -/
def convertPythonArgsToJni {H : Type} (env : StaticCallEnv H) (args : List (PyVal H)) :
    Except String (List (PyVal H)) :=
  args.mapM fun arg =>
    match arg with
    | .vstr s =>
        match env.newStringUTF s with
        | .error e => .error e
        | .ok none => .error ("Failed to create JNI string for: " ++ s)
        | .ok (some h) => .ok (.vhandle h)
    | other => .ok other

/-- `JNIHelper.CallStaticObjectMethod` (jni.py lines 634-654), instrumented
with the frame events it performs: push a frame of capacity
`max(10, 2*len(args))` (a nonzero push code raises before any frame
exists), marshal, call, and pop in a `finally`, threading the result
through the pop on the success path and `None` on the error paths. -/
def callStaticObjectMethodScoped {H : Type} (env : StaticCallEnv H)
    (args : List (PyVal H)) : Except String (Option H) × List (FrameEvent H) :=
  let cap := max 10 (args.length * 2)
  if env.pushLocalFrame cap != 0 then (.error "Failed to push local frame", [])
  else
    match convertPythonArgsToJni env args with
    | .error e => (.error e, [.push cap, .pop none])
    | .ok jniArgs =>
        match (if jniArgs.isEmpty then env.callNoArgs else env.callWithArgs jniArgs) with
        | .error e => (.error e, [.push cap, .pop none])
        | .ok r => (.ok (env.popLocalFrame r), [.push cap, .pop r])

/-- The mutable state of a `JVM` instance that `graceful_shutdown` touches
(jvm.py lines 65-70): the shutdown flag and the class cache. -/
structure JVMState (H : Type) where
  shutdownComplete : Bool
  classCache : List (String × H)
  deriving Repr, DecidableEq

/-- Abstract JNI operations used by `JVM.graceful_shutdown`
(jvm.py lines 72-128). -/
structure ShutdownEnv (H M : Type) where
  isNullH : H → Bool
  deleteGlobalRef : H → Except String Unit
  pushLocalFrame : Nat → Int
  findClassJNI : String → Except String (Option H)
  getStaticMethodID : H → String → String → Except String (Option M)
  callStaticObjectMethod0 : H → M → Except String (Option H)
  getMethodID : H → String → String → Except String (Option M)
  callVoidMethod1 : H → M → Int → Except String Unit
  popLocalFrame : Option H → Option H

/-- The local-frame section of `graceful_shutdown` (jvm.py lines 98-121):
push a frame of 64, chain `Runtime.getRuntime()` then `halt(0)` with every
intermediate NULL skipping the rest, pop the frame in a `finally`, and let
any raised error escape to the caller's outer `except`. -/
def shutdownFrameBody {H M : Type} (env : ShutdownEnv H M) : Except String Unit :=
  if env.pushLocalFrame 64 == 0 then
    let inner : Except String Unit :=
      match env.findClassJNI "java/lang/Runtime" with
      | .error e => .error e
      | .ok none => .ok ()
      | .ok (some runtimeClass) =>
          match env.getStaticMethodID runtimeClass "getRuntime" "()Ljava/lang/Runtime;" with
          | .error e => .error e
          | .ok none => .ok ()
          | .ok (some getRuntimeMethod) =>
              match env.callStaticObjectMethod0 runtimeClass getRuntimeMethod with
              | .error e => .error e
              | .ok none => .ok ()
              | .ok (some runtimeInstance) =>
                  match env.getMethodID runtimeClass "halt" "(I)V" with
                  | .error e => .error e
                  | .ok none => .ok ()
                  | .ok (some haltMethod) =>
                      env.callVoidMethod1 runtimeInstance haltMethod 0
    let _ := env.popLocalFrame none
    inner
  else .ok ()

/-- `JVM.graceful_shutdown` (jvm.py lines 72-128): return immediately when
already complete; otherwise delete every cached global reference (per-entry
failures swallowed), clear the cache, run the halt sequence inside a local
frame, and mark the shutdown complete whether or not anything failed — the
whole body sits inside `try`/`except`, so nothing propagates. -/
def gracefulShutdown {H M : Type} (env : ShutdownEnv H M) (st : JVMState H) : JVMState H :=
  if st.shutdownComplete then st
  else
    let _ := st.classCache.map fun p =>
      if env.isNullH p.2 then Except.ok () else env.deleteGlobalRef p.2
    match shutdownFrameBody env with
    | .ok _ => { shutdownComplete := true, classCache := [] }
    | .error _ => { shutdownComplete := true, classCache := [] }

/-! ### Spec-side predicate for the marshaling claim -/

/-- The conversion rule claimed for one marshaled cell: the cell equals the
all-zero cell with exactly the member selected by the argument's runtime
type written (boolean member for `bool`, 32-bit member for in-range ints,
64-bit member otherwise, double member for floats, object member for
everything else including `None`). -/
def cellSpec (arg : PyArg) (cell : JValueCell) : Prop :=
  match arg with
  | .pyBool bv => cell = { JValueCell.zero with z := bv }
  | .pyInt n =>
      if -(2 ^ 31) ≤ n ∧ n ≤ 2 ^ 31 - 1 then cell = { JValueCell.zero with i := n }
      else cell = { JValueCell.zero with j := wrap64 n }
  | .pyFloat x => cell = { JValueCell.zero with d := x }
  | .handle h => cell = { JValueCell.zero with l := h }
  | .pyNone => cell = { JValueCell.zero with l := 0 }

/-! ### Concrete JNI models used to instantiate the abstract environments -/

/-- Concrete handle model for the round-trip witness: a handle is a native
string, a boxed Boolean, a boxed Integer, or one of the three well-known
class objects. -/
inductive WH where
  | hstr (s : String)
  | hbool (bv : Bool)
  | hint (n : Int)
  | hclsStr
  | hclsBool
  | hclsInt
  deriving Repr, DecidableEq

/-- Concrete method-ID model for the round-trip witness. -/
inductive WM where
  | mBoolValueOf
  | mIntValueOf
  | mBooleanValue
  | mIntValue
  deriving Repr, DecidableEq

/-- A concrete `TCEnv` in which string creation/extraction and the boxed
Boolean/Integer factories and accessors are mutually inverse. -/
def wEnv : TCEnv WH WM where
  isNullH := fun _ => false
  newStringUTF := fun s => .ok (some (.hstr s))
  findClass := fun name =>
    if name = "java/lang/String" then .ok .hclsStr
    else if name = "java/lang/Boolean" then .ok .hclsBool
    else if name = "java/lang/Integer" then .ok .hclsInt
    else .error ("Failed to find class " ++ name)
  getStaticMethodID := fun cls mname _sig =>
    match cls, mname with
    | .hclsBool, "valueOf" => .ok (some .mBoolValueOf)
    | .hclsInt, "valueOf" => .ok (some .mIntValueOf)
    | _, _ => .ok none
  callStaticObjectMethod1 := fun _cls mid arg =>
    match mid, arg with
    | .mBoolValueOf, .vbool bv => .ok (some (.hbool bv))
    | .mIntValueOf, .vint n => .ok (some (.hint n))
    | _, _ => .error "JNI exception occurred"
  getObjectClass := fun v =>
    match v with
    | .vhandle (.hstr _) => .ok .hclsStr
    | .vhandle (.hbool _) => .ok .hclsBool
    | .vhandle (.hint _) => .ok .hclsInt
    | .vhandle _ => .ok .hclsStr
    | _ => .error .typeLike
  isInstanceOf := fun v cls =>
    match v, cls with
    | .vhandle (.hstr _), .hclsStr => true
    | .vhandle (.hbool _), .hclsBool => true
    | .vhandle (.hint _), .hclsInt => true
    | _, _ => false
  getStringUTFChars := fun v =>
    match v with
    | .vhandle (.hstr s) => .ok (some s)
    | _ => .ok none
  getMethodID := fun cls mname _sig =>
    match cls, mname with
    | .hclsBool, "booleanValue" => .ok (some .mBooleanValue)
    | .hclsInt, "intValue" => .ok (some .mIntValue)
    | _, _ => .ok none
  callBooleanMethod := fun v _mid =>
    match v with
    | .vhandle (.hbool bv) => .ok bv
    | _ => .error "JNI exception occurred"
  callIntMethod := fun v _mid =>
    match v with
    | .vhandle (.hint n) => .ok n
    | _ => .error "JNI exception occurred"

/-- A concrete `ProxyEnv` over `Nat` handles and method IDs, used to
exercise the proxy-call paths on concrete inputs. -/
def natEnv : ProxyEnv Nat Nat where
  isNullH := fun _ => false
  newStringUTF := fun _ => .ok (some 1)
  findClass := fun _ => .ok 0
  getStaticMethodID := fun _ _ _ => .ok (some 0)
  callStaticObjectMethod1 := fun _ _ _ => .ok (some 5)
  getObjectClass := fun _ => .ok 0
  isInstanceOf := fun _ _ => false
  getStringUTFChars := fun _ => .ok none
  getMethodID := fun _ _ _ => .ok (some 0)
  callBooleanMethod := fun _ _ => .ok true
  callIntMethod := fun _ _ => .ok 0
  getObjectClassH := fun _ => .ok (some 0)
  callVoidMethodN := fun _ _ _ => .ok ()
  callObjectMethodN := fun _ _ _ => .ok (some 6)
  callStaticObjectMethodN := fun _ _ _ => .ok (some 6)

/-- A concrete `FindEnv` over `Nat` handles: `java/lang/Foo` resolves and
promotes, `java/lang/Bar` resolves but promotion fails, everything else
yields a NULL lookup. -/
def natFindEnv : FindEnv Nat where
  findClassJNI := fun name =>
    if name = "java/lang/Foo" then .ok (some 3)
    else if name = "java/lang/Bar" then .ok (some 4)
    else .ok none
  newGlobalRef := fun c => if c = 3 then .ok (some 7) else .ok none

/-- A concrete `StrEnv` over `Nat` handles: handle 1 decodes, handle 2
extracts NULL, every other handle raises; `getName` on object 9 yields name
handle 3. -/
def natStrEnv : StrEnv Nat where
  getStringUTFChars := fun h =>
    if h = 1 then .ok (some "hello")
    else if h = 2 then .ok none
    else .error "JNI exception occurred"
  callGetName := fun obj => if obj = 9 then .ok (some 3) else .error "JNI exception occurred"

/-- A concrete `StaticCallEnv` over `Nat` handles in which the push always
succeeds and calls return handles. -/
def natStaticEnv : StaticCallEnv Nat where
  pushLocalFrame := fun _ => 0
  newStringUTF := fun _ => .ok (some 1)
  callNoArgs := .ok (some 2)
  callWithArgs := fun _ => .ok (some 3)
  popLocalFrame := id

/-- A concrete `ShutdownEnv` over `Nat` handles and method IDs with benign
operations. -/
def natShutdownEnv : ShutdownEnv Nat Nat where
  isNullH := fun _ => false
  deleteGlobalRef := fun _ => .ok ()
  pushLocalFrame := fun _ => 0
  findClassJNI := fun _ => .ok none
  getStaticMethodID := fun _ _ _ => .ok none
  callStaticObjectMethod0 := fun _ _ => .ok none
  getMethodID := fun _ _ _ => .ok none
  callVoidMethod1 := fun _ _ _ => .ok ()
  popLocalFrame := id

/-! ### Theorems -/

/-- Every populated cell satisfies the claimed conversion rule. -/
theorem forall2_cellSpec (args : List PyArg) :
    List.Forall₂ cellSpec args (args.map populateCell) := by
  induction args with
  | nil => exact List.Forall₂.nil
  | cons a as ih =>
      refine List.Forall₂.cons ?_ ih
      cases a with
      | pyBool bv => simp [cellSpec, populateCell]
      | pyInt n =>
          by_cases hc : -(2 ^ 31) ≤ n ∧ n ≤ 2 ^ 31 - 1
          · simp only [cellSpec, populateCell]
            rw [if_pos hc, if_pos hc]
          · simp only [cellSpec, populateCell]
            rw [if_neg hc, if_neg hc]
      | pyFloat x => simp [cellSpec, populateCell]
      | handle h => simp [cellSpec, populateCell]
      | pyNone => simp [cellSpec, populateCell]

/-- C1: `_convert_args_to_jvalue_array` reports length equal to the tuple
length, maps the empty tuple to a null array of reported length 0, and for
a nonempty tuple produces one cell per argument where each cell is the
zero-initialized cell with exactly the member selected by the argument's
runtime type written: boolean member for a bool, 32-bit member for an int
in signed 32-bit range, 64-bit member for any other int, 64-bit float
member for a float, and the object-handle member for anything else
including null. -/
theorem marshaling_produces_tagged_zeroed_cells (args : List PyArg) :
    (convertArgsToJvalueArray args).2 = args.length
    ∧ (args = [] → convertArgsToJvalueArray args = (none, 0))
    ∧ (args ≠ [] → ∃ cells, (convertArgsToJvalueArray args).1 = some cells
        ∧ cells.length = args.length
        ∧ List.Forall₂ cellSpec args cells) := by
  refine ⟨?_, ?_, ?_⟩
  · by_cases h : args = [] <;> simp [convertArgsToJvalueArray, h]
  · intro h; simp [convertArgsToJvalueArray, h]
  · intro h
    refine ⟨args.map populateCell, ?_, by simp, forall2_cellSpec args⟩
    simp [convertArgsToJvalueArray, h]

/-- Witness for C1 at a concrete argument tuple covering every branch. -/
theorem marshaling_witness :
    ([.pyBool true, .pyInt 5, .pyInt (2 ^ 31), .pyFloat 3, .handle 7, .pyNone] : List PyArg) ≠ []
    ∧ ∃ cells, (convertArgsToJvalueArray
          [.pyBool true, .pyInt 5, .pyInt (2 ^ 31), .pyFloat 3, .handle 7, .pyNone]).1
            = some cells
        ∧ cells.length
            = ([.pyBool true, .pyInt 5, .pyInt (2 ^ 31), .pyFloat 3, .handle 7,
                .pyNone] : List PyArg).length
        ∧ List.Forall₂ cellSpec
            [.pyBool true, .pyInt 5, .pyInt (2 ^ 31), .pyFloat 3, .handle 7, .pyNone] cells :=
  ⟨by decide,
   (marshaling_produces_tagged_zeroed_cells _).2.2 (by decide)⟩

/-- C6: the signature-encoding utility maps each of the nine primitive type
names to its single-letter code and every other type name to
`L` + slash-form + `;`; the two scenario descriptors encode to
`(Ljava/lang/String;I)Ljava/lang/Object;` and `()V`. -/
theorem signature_encoding_spec :
    (javaTypeToSig "int" = "I" ∧ javaTypeToSig "long" = "J" ∧ javaTypeToSig "float" = "F"
      ∧ javaTypeToSig "double" = "D" ∧ javaTypeToSig "boolean" = "Z"
      ∧ javaTypeToSig "void" = "V" ∧ javaTypeToSig "byte" = "B"
      ∧ javaTypeToSig "char" = "C" ∧ javaTypeToSig "short" = "S")
    ∧ (∀ t : String,
        t ∉ ["int", "long", "float", "double", "boolean", "void", "byte", "char", "short"] →
        javaTypeToSig t = "L" ++ dotsToSlashes t ++ ";")
    ∧ buildSig ⟨"foo", ["java.lang.String", "int"], "java.lang.Object", false⟩
        = "(Ljava/lang/String;I)Ljava/lang/Object;"
    ∧ buildSig ⟨"main", [], "void", true⟩ = "()V" := by
  refine ⟨⟨by decide, by decide, by decide, by decide, by decide, by decide, by decide,
    by decide, by decide⟩, ?_, by decide, by decide⟩
  intro t ht
  simp only [List.mem_cons, List.not_mem_nil, or_false, not_or] at ht
  obtain ⟨h1, h2, h3, h4, h5, h6, h7, h8, h9⟩ := ht
  have e1 : (t == "int") = false := beq_eq_false_iff_ne.mpr h1
  have e2 : (t == "long") = false := beq_eq_false_iff_ne.mpr h2
  have e3 : (t == "float") = false := beq_eq_false_iff_ne.mpr h3
  have e4 : (t == "double") = false := beq_eq_false_iff_ne.mpr h4
  have e5 : (t == "boolean") = false := beq_eq_false_iff_ne.mpr h5
  have e6 : (t == "void") = false := beq_eq_false_iff_ne.mpr h6
  have e7 : (t == "byte") = false := beq_eq_false_iff_ne.mpr h7
  have e8 : (t == "char") = false := beq_eq_false_iff_ne.mpr h8
  have e9 : (t == "short") = false := beq_eq_false_iff_ne.mpr h9
  simp [javaTypeToSig, PRIM, List.lookup, e1, e2, e3, e4, e5, e6, e7, e8, e9]

/-- Witness for C6 at the reference type name `java.lang.Object`. -/
theorem signature_encoding_witness :
    ("java.lang.Object" : String)
        ∉ ["int", "long", "float", "double", "boolean", "void", "byte", "char", "short"]
    ∧ javaTypeToSig "java.lang.Object" = "L" ++ dotsToSlashes "java.lang.Object" ++ ";" :=
  ⟨by decide, signature_encoding_spec.2.1 "java.lang.Object" (by decide)⟩

/-- C7: attribute access on a `PackageProxy` yields a `ClassProxy` named
`pkg.item` exactly when the class lookup succeeds, otherwise a
`PackageProxy` named `pkg.item` with no error; there is no negative
caching, so a later access re-attempts the lookup; the two spec scenarios
hold. -/
theorem package_proxy_resolution (findOk findOk2 : String → Bool) (pkg item : String) :
    (findOk (dotsToSlashes (pkg ++ "." ++ item)) = true →
        packageProxyGetattr findOk pkg item = .classProxy (pkg ++ "." ++ item))
    ∧ (findOk (dotsToSlashes (pkg ++ "." ++ item)) = false →
        packageProxyGetattr findOk pkg item = .packageProxy (pkg ++ "." ++ item))
    ∧ (findOk (dotsToSlashes (pkg ++ "." ++ item)) = false →
       findOk2 (dotsToSlashes (pkg ++ "." ++ item)) = true →
        packageProxyGetattr findOk pkg item = .packageProxy (pkg ++ "." ++ item)
        ∧ packageProxyGetattr findOk2 pkg item = .classProxy (pkg ++ "." ++ item))
    ∧ packageProxyGetattr (fun s => s == "java/lang/System") "java.lang" "System"
        = .classProxy "java.lang.System"
    ∧ packageProxyGetattr (fun _ => false) "java.util" "nonexistent"
        = .packageProxy "java.util.nonexistent" := by
  refine ⟨?_, ?_, ?_, by decide, by decide⟩
  · intro h; simp [packageProxyGetattr, h]
  · intro h; simp [packageProxyGetattr, h]
  · intro h h2
    exact ⟨by simp [packageProxyGetattr, h], by simp [packageProxyGetattr, h2]⟩

/-- Witness for C7 at the `java.lang.System` scenario lookup function. -/
theorem package_proxy_resolution_witness :
    (fun s => s == "java/lang/System") (dotsToSlashes ("java.lang" ++ "." ++ "System")) = true
    ∧ packageProxyGetattr (fun s => s == "java/lang/System") "java.lang" "System"
        = .classProxy ("java.lang" ++ "." ++ "System") :=
  ⟨by decide,
   (package_proxy_resolution (fun s => s == "java/lang/System") (fun _ => false)
      "java.lang" "System").1 (by decide)⟩

/-- Counterexample to C9: a descriptor whose only method named `getValue`
is static still yields an `InstanceMethodProxy` bound to that static
method — `ObjectProxy.__getattr__` filters by name only, so static methods
ARE matched, not rejected with an attribute-not-found error as the claim
states. -/
theorem object_proxy_static_matched_counterexample :
    JavaMethod.is_static ⟨"getValue", [], "int", true⟩ = true
    ∧ objectProxyGetattr [⟨"getValue", [], "int", true⟩] "getValue"
        = .ok [⟨"getValue", [], "int", true⟩]
    ∧ ¬ objectProxyGetattr [⟨"getValue", [], "int", true⟩] "getValue"
        = .error "getValue" := by
  refine ⟨rfl, rfl, fun h => ?_⟩
  exact Except.noConfusion h

/-- C9 (amended): `ObjectProxy.__getattr__` matches the reflected
descriptor's methods by name only, regardless of the static flag — fields
are never consulted; when at least one method of that name exists the
result is an `InstanceMethodProxy` bound to exactly the methods of that
name, otherwise the access fails with `AttributeError(item)`. -/
theorem object_proxy_name_only_matching (methods : List JavaMethod) (item : String) :
    ((∃ m ∈ methods, m.name = item) →
        objectProxyGetattr methods item = .ok (methods.filter (fun m => m.name == item)))
    ∧ ((∀ m ∈ methods, m.name ≠ item) →
        objectProxyGetattr methods item = .error item) := by
  constructor
  · rintro ⟨m, hm, hname⟩
    have hne : methods.filter (fun m => m.name == item) ≠ [] := by
      intro hnil
      have := List.filter_eq_nil_iff.mp hnil m hm
      simp [hname] at this
    simp [objectProxyGetattr, List.isEmpty_iff, hne]
  · intro hall
    have hnil : methods.filter (fun m => m.name == item) = [] := by
      refine List.filter_eq_nil_iff.mpr ?_
      intro a ha
      simpa using hall a ha
    simp [objectProxyGetattr, hnil]

/-- Witness for C9 (amended) at a one-method descriptor. -/
theorem object_proxy_name_only_witness :
    (∃ m ∈ ([⟨"m", [], "void", false⟩] : List JavaMethod), m.name = "m")
    ∧ objectProxyGetattr [⟨"m", [], "void", false⟩] "m"
        = .ok (([⟨"m", [], "void", false⟩] : List JavaMethod).filter
            (fun m => m.name == "m")) :=
  ⟨⟨⟨"m", [], "void", false⟩, by simp, rfl⟩,
   (object_proxy_name_only_matching _ _).1 ⟨⟨"m", [], "void", false⟩, by simp, rfl⟩⟩

/-- C10: `_get_string_utf_chars` is total and never raises — a NULL handle
yields `""`, a successful extraction yields the decoded text (with `""`
for a NULL read), and a raised extraction yields the sentinel
`"get_error"`; consequently `_extract_method_name` can return
`"get_error"` instead of the `"unknown_method"` placeholder when the
`getName` call succeeds but decoding raises. -/
theorem string_extraction_total {H : Type} (env : StrEnv H) (h obj ns : H)
    (s e e2 : String) :
    jvmGetStringUTFChars env none = ""
    ∧ (env.getStringUTFChars h = .ok (some s) → jvmGetStringUTFChars env (some h) = s)
    ∧ (env.getStringUTFChars h = .ok none → jvmGetStringUTFChars env (some h) = "")
    ∧ (env.getStringUTFChars h = .error e → jvmGetStringUTFChars env (some h) = "get_error")
    ∧ (env.callGetName obj = .ok (some ns) → env.getStringUTFChars ns = .error e2 →
        extractMethodName env obj = "get_error") := by
  refine ⟨rfl, ?_, ?_, ?_, ?_⟩
  · intro hh; simp [jvmGetStringUTFChars, hh]
  · intro hh; simp [jvmGetStringUTFChars, hh]
  · intro hh; simp [jvmGetStringUTFChars, hh]
  · intro h1 h2; simp [extractMethodName, jvmGetStringUTFChars, h1, h2]

/-- Witness for C10 on the concrete `Nat` string environment. -/
theorem string_extraction_witness :
    natStrEnv.getStringUTFChars 3 = .error "JNI exception occurred"
    ∧ natStrEnv.callGetName 9 = .ok (some 3)
    ∧ jvmGetStringUTFChars natStrEnv (some 3) = "get_error"
    ∧ extractMethodName natStrEnv 9 = "get_error" :=
  ⟨rfl, rfl,
   (string_extraction_total natStrEnv 3 9 3 "hello" "JNI exception occurred"
      "JNI exception occurred").2.2.2.1 rfl,
   (string_extraction_total natStrEnv 3 9 3 "hello" "JNI exception occurred"
      "JNI exception occurred").2.2.2.2 rfl rfl⟩

/-- If a name is unbound in an association list, `any` of key-equality is
false. -/
theorem lookup_none_any_eq_false {H : Type} (cache : List (String × H)) (name : String)
    (h : cache.lookup name = none) : cache.any (fun p => p.1 == name) = false := by
  induction cache with
  | nil => rfl
  | cons p tl ih =>
      simp only [List.lookup] at h
      cases hbeq : (name == p.1) with
      | true => rw [hbeq] at h; simp at h
      | false =>
          rw [hbeq] at h
          have hpf : (p.1 == name) = false :=
            beq_eq_false_iff_ne.mpr (Ne.symm (beq_eq_false_iff_ne.mp hbeq))
          simp [hpf, ih h]

/-- Appending a fresh binding makes it visible to `lookup`. -/
theorem lookup_append_singleton {H : Type} (cache : List (String × H)) (name : String)
    (g : H) (h : cache.lookup name = none) :
    (cache ++ [(name, g)]).lookup name = some g := by
  induction cache with
  | nil => simp [List.lookup]
  | cons p tl ih =>
      simp only [List.lookup] at h
      cases hbeq : (name == p.1) with
      | true => rw [hbeq] at h; simp at h
      | false =>
          rw [hbeq] at h
          rw [List.cons_append]
          simp only [List.lookup, hbeq]
          exact ih h

/-- `cacheInsert` on an unbound name makes the binding visible to
`lookup`. -/
theorem lookup_cacheInsert {H : Type} (cache : List (String × H)) (name : String) (g : H)
    (h : cache.lookup name = none) : (cacheInsert cache name g).lookup name = some g := by
  unfold cacheInsert
  rw [lookup_none_any_eq_false cache name h]
  simpa using lookup_append_singleton cache name g h

/-- C4: `_find_class` returns the identical cached reference on a cache hit
without touching the cache; after a successful miss (lookup succeeds,
promotion succeeds) the reference is cached and a second resolution returns
the identical global reference with the cache unchanged; a miss whose JNI
lookup yields NULL fails with the `JNIException` message naming the class;
and a miss whose promotion yields NULL returns the local reference without
inserting it into the cache. -/
theorem find_class_cache_spec {H : Type} (env : FindEnv H) (cache : List (String × H))
    (name : String) (c g : H) :
    (cache.lookup name = some g → findClassCached env cache name = (.ok g, cache))
    ∧ (cache.lookup name = none → env.findClassJNI name = .ok (some c) →
       env.newGlobalRef c = .ok (some g) →
        findClassCached env cache name = (.ok g, cacheInsert cache name g)
        ∧ findClassCached env (cacheInsert cache name g) name
            = (.ok g, cacheInsert cache name g))
    ∧ (cache.lookup name = none → env.findClassJNI name = .ok none →
        findClassCached env cache name
          = (.error ("Failed to find class " ++ name ++ ": Could not find class: " ++ name),
             cache))
    ∧ (cache.lookup name = none → env.findClassJNI name = .ok (some c) →
       env.newGlobalRef c = .ok none →
        findClassCached env cache name = (.ok c, cache)) := by
  refine ⟨?_, ?_, ?_, ?_⟩
  · intro h; simp [findClassCached, h]
  · intro h hf hg
    refine ⟨by simp [findClassCached, h, hf, hg], ?_⟩
    simp [findClassCached, lookup_cacheInsert cache name g h]
  · intro h hf; simp [findClassCached, h, hf]
  · intro h hf hg; simp [findClassCached, h, hf, hg]

/-- Witness for C4: resolving `java/lang/Foo` twice against an empty cache
returns the identical promoted reference with a stable cache. -/
theorem find_class_cache_witness :
    ([] : List (String × Nat)).lookup "java/lang/Foo" = none
    ∧ natFindEnv.findClassJNI "java/lang/Foo" = .ok (some 3)
    ∧ natFindEnv.newGlobalRef 3 = .ok (some 7)
    ∧ (findClassCached natFindEnv [] "java/lang/Foo"
          = (.ok 7, cacheInsert [] "java/lang/Foo" 7)
        ∧ findClassCached natFindEnv (cacheInsert [] "java/lang/Foo" 7) "java/lang/Foo"
          = (.ok 7, cacheInsert [] "java/lang/Foo" 7)) :=
  ⟨rfl, rfl, rfl,
   (find_class_cache_spec natFindEnv [] "java/lang/Foo" 3 7).2.1 rfl rfl rfl⟩

/-- C5: the scoped static call pushes a frame of capacity
`max(10, 2*len(args))`; when the push fails the call fails with no pop;
when the push succeeds every exit path — marshaling error, call error, or
normal return — performs exactly one pop, with the call's result value
threaded through the pop on the normal path and `None` on the error
paths. -/
theorem scoped_static_call_balanced {H : Type} (env : StaticCallEnv H)
    (args : List (PyVal H)) :
    (env.pushLocalFrame (max 10 (args.length * 2)) ≠ 0 →
        callStaticObjectMethodScoped env args = (.error "Failed to push local frame", []))
    ∧ (env.pushLocalFrame (max 10 (args.length * 2)) = 0 →
        (∃ e, (callStaticObjectMethodScoped env args).1 = .error e
            ∧ (callStaticObjectMethodScoped env args).2
                = [.push (max 10 (args.length * 2)), .pop none])
        ∨ (∃ r, (callStaticObjectMethodScoped env args).1 = .ok (env.popLocalFrame r)
            ∧ (callStaticObjectMethodScoped env args).2
                = [.push (max 10 (args.length * 2)), .pop r])) := by
  constructor
  · intro h
    have hb : (env.pushLocalFrame (max 10 (args.length * 2)) != 0) = true := by
      simpa using h
    simp [callStaticObjectMethodScoped, hb]
  · intro h
    have hb : (env.pushLocalFrame (max 10 (args.length * 2)) != 0) = false := by
      simp [h]
    cases hc : convertPythonArgsToJni env args with
    | error e =>
        exact Or.inl ⟨e, by simp [callStaticObjectMethodScoped, hb, hc],
          by simp [callStaticObjectMethodScoped, hb, hc]⟩
    | ok jniArgs =>
        cases hcall : (if jniArgs.isEmpty then env.callNoArgs else env.callWithArgs jniArgs) with
        | error e =>
            exact Or.inl ⟨e, by simp [callStaticObjectMethodScoped, hb, hc, hcall],
              by simp [callStaticObjectMethodScoped, hb, hc, hcall]⟩
        | ok r =>
            exact Or.inr ⟨r, by simp [callStaticObjectMethodScoped, hb, hc, hcall],
              by simp [callStaticObjectMethodScoped, hb, hc, hcall]⟩

/-- Witness for C5 at a one-string-argument call on the concrete `Nat`
static-call environment. -/
theorem scoped_static_call_witness :
    natStaticEnv.pushLocalFrame (max 10 (([.vstr "a"] : List (PyVal Nat)).length * 2)) = 0
    ∧ ((∃ e, (callStaticObjectMethodScoped natStaticEnv [.vstr "a"]).1 = .error e
          ∧ (callStaticObjectMethodScoped natStaticEnv [.vstr "a"]).2
              = [.push (max 10 (([.vstr "a"] : List (PyVal Nat)).length * 2)), .pop none])
      ∨ (∃ r, (callStaticObjectMethodScoped natStaticEnv [.vstr "a"]).1
              = .ok (natStaticEnv.popLocalFrame r)
          ∧ (callStaticObjectMethodScoped natStaticEnv [.vstr "a"]).2
              = [.push (max 10 (([.vstr "a"] : List (PyVal Nat)).length * 2)), .pop r])) :=
  ⟨rfl, (scoped_static_call_balanced natStaticEnv [.vstr "a"]).2 rfl⟩

/-- C8: `graceful_shutdown` never raises (it is a total state transformer
by construction, mirroring the all-enclosing `try`/`except`), always
leaves the shutdown flag set, clears the class cache on a first call, is a
no-op returning immediately when the flag is already set, and is
idempotent. -/
theorem graceful_shutdown_idempotent {H M : Type} (env : ShutdownEnv H M)
    (st : JVMState H) :
    (gracefulShutdown env st).shutdownComplete = true
    ∧ (st.shutdownComplete = false → (gracefulShutdown env st).classCache = [])
    ∧ (st.shutdownComplete = true → gracefulShutdown env st = st)
    ∧ gracefulShutdown env (gracefulShutdown env st) = gracefulShutdown env st := by
  have hrun : ∀ s : JVMState H, s.shutdownComplete = false →
      gracefulShutdown env s = { shutdownComplete := true, classCache := [] } := by
    intro s hs
    simp only [gracefulShutdown, hs, Bool.false_eq_true, if_false]
    cases hb : shutdownFrameBody env with
    | ok u => simp [hb]
    | error e => simp [hb]
  by_cases hc : st.shutdownComplete = true
  · have hst : gracefulShutdown env st = st := by simp [gracefulShutdown, hc]
    exact ⟨by rw [hst]; exact hc, fun h => absurd hc (by simp [h]), fun _ => hst,
      by rw [hst, hst]⟩
  · have hc' : st.shutdownComplete = false := by
      revert hc; cases st.shutdownComplete <;> simp
    have h1 := hrun st hc'
    refine ⟨by rw [h1], fun _ => by rw [h1], fun h => absurd h (by rw [hc']; simp), ?_⟩
    rw [h1]
    simp [gracefulShutdown]

/-- Witness for C8 at a fresh state holding one cached reference. -/
theorem graceful_shutdown_witness :
    (⟨false, [("java/lang/String", 5)]⟩ : JVMState Nat).shutdownComplete = false
    ∧ (gracefulShutdown natShutdownEnv ⟨false, [("java/lang/String", 5)]⟩).classCache = [] :=
  ⟨rfl,
   (graceful_shutdown_idempotent natShutdownEnv ⟨false, [("java/lang/String", 5)]⟩).2.1 rfl⟩

/-- C2: under the hypothesis that the runtime's string creation/extraction
and boxed `Boolean`/`Integer` `valueOf`/`booleanValue`/`intValue`
operations are mutually inverse (stated as equations on the abstract
environment), `to_python` after `to_java` is the identity on host strings,
booleans, and 32-bit-range integers. -/
theorem to_java_to_python_round_trip {H M : Type} (env : TCEnv H M)
    (s : String) (b : Bool) (n : Int)
    (hs hb hn strCls boolCls intCls cs cb ci : H) (bvMid ivMid bbMid iiMid : M)
    (hFS : env.findClass "java/lang/String" = .ok strCls)
    (hFB : env.findClass "java/lang/Boolean" = .ok boolCls)
    (hFI : env.findClass "java/lang/Integer" = .ok intCls)
    (hNS : env.newStringUTF s = .ok (some hs))
    (hsNN : env.isNullH hs = false)
    (hGOCs : env.getObjectClass (.vhandle hs) = .ok cs)
    (hsStr : env.isInstanceOf (.vhandle hs) strCls = true)
    (hChars : env.getStringUTFChars (.vhandle hs) = .ok (some s))
    (hBmid : env.getStaticMethodID boolCls "valueOf" "(Z)Ljava/lang/Boolean;"
        = .ok (some bvMid))
    (hBox : env.callStaticObjectMethod1 boolCls bvMid (.vbool b) = .ok (some hb))
    (hbNN : env.isNullH hb = false)
    (hGOCb : env.getObjectClass (.vhandle hb) = .ok cb)
    (hbNotStr : env.isInstanceOf (.vhandle hb) strCls = false)
    (hbBool : env.isInstanceOf (.vhandle hb) boolCls = true)
    (hBVmid : env.getMethodID boolCls "booleanValue" "()Z" = .ok (some bbMid))
    (hBV : env.callBooleanMethod (.vhandle hb) bbMid = .ok b)
    (_hRange : -(2 ^ 31) ≤ n ∧ n ≤ 2 ^ 31 - 1)
    (hImid : env.getStaticMethodID intCls "valueOf" "(I)Ljava/lang/Integer;"
        = .ok (some ivMid))
    (hIbox : env.callStaticObjectMethod1 intCls ivMid (.vint n) = .ok (some hn))
    (hnNN : env.isNullH hn = false)
    (hGOCi : env.getObjectClass (.vhandle hn) = .ok ci)
    (hiNotStr : env.isInstanceOf (.vhandle hn) strCls = false)
    (hiNotBool : env.isInstanceOf (.vhandle hn) boolCls = false)
    (hiInt : env.isInstanceOf (.vhandle hn) intCls = true)
    (hIVmid : env.getMethodID intCls "intValue" "()I" = .ok (some iiMid))
    (hIV : env.callIntMethod (.vhandle hn) iiMid = .ok n) :
    Except.bind (toJava env (.vstr s)) (toPython env) = .ok (.vstr s)
    ∧ Except.bind (toJava env (.vbool b)) (toPython env) = .ok (.vbool b)
    ∧ Except.bind (toJava env (.vint n)) (toPython env) = .ok (.vint n) := by
  refine ⟨?_, ?_, ?_⟩
  · by_cases hse : s = ""
    · subst hse
      simp [toJava, toPython, Except.bind, hNS, optToVal, PyVal.truthy, hsNN,
        PyVal.isContainer, hGOCs, hFS, hsStr, hChars]
    · simp [toJava, toPython, Except.bind, hNS, optToVal, PyVal.truthy, hsNN,
        PyVal.isContainer, hGOCs, hFS, hsStr, hChars, hse]
  · simp [toJava, toPython, Except.bind, hFB, hBmid, hBox, optToVal, PyVal.truthy,
      hbNN, PyVal.isContainer, hGOCb, hFS, hbNotStr, hbBool, hBVmid, hBV]
  · simp [toJava, toPython, Except.bind, hFI, hImid, hIbox, optToVal, PyVal.truthy,
      hnNN, PyVal.isContainer, hGOCi, hFS, hiNotStr, hFB, hiNotBool, hiInt,
      hIVmid, hIV]

/-- Witness for C2 on the concrete mutually-inverse JNI model, with a
multi-byte Unicode string. -/
theorem round_trip_witness :
    wEnv.newStringUTF "héllo ✓" = .ok (some (.hstr "héllo ✓"))
    ∧ wEnv.getStringUTFChars (.vhandle (.hstr "héllo ✓")) = .ok (some "héllo ✓")
    ∧ (Except.bind (toJava wEnv (.vstr "héllo ✓")) (toPython wEnv) = .ok (.vstr "héllo ✓")
      ∧ Except.bind (toJava wEnv (.vbool true)) (toPython wEnv) = .ok (.vbool true)
      ∧ Except.bind (toJava wEnv (.vint 42)) (toPython wEnv) = .ok (.vint 42)) :=
  ⟨rfl, rfl,
   to_java_to_python_round_trip wEnv "héllo ✓" true 42
     (.hstr "héllo ✓") (.hbool true) (.hint 42) .hclsStr .hclsBool .hclsInt
     .hclsStr .hclsBool .hclsInt .mBoolValueOf .mIntValueOf .mBooleanValue .mIntValue
     rfl rfl rfl rfl rfl rfl rfl rfl rfl rfl rfl rfl rfl rfl rfl rfl
     (by decide) rfl rfl rfl rfl rfl rfl rfl rfl rfl⟩

/-- Counterexample to C3: a static `MethodProxy` call where the single
overload has an arity-matching parameter list `["int"]` but the argument
is a string — the claim says the arity match should select that overload
(and a "no matching method" error should occur only with no arity match),
yet the type-compatibility heuristic of `matches_signature` rejects it and
the defaultless `next(...)` raises a bare `StopIteration` with no such
message. -/
theorem static_overload_arity_counterexample :
    (⟨"f", ["int"], "void", true⟩ : JavaMethod).parameters.length = 1
    ∧ ([⟨"f", ["int"], "void", true⟩] : List JavaMethod).find?
        (fun o => o.parameters.length == 1) = some ⟨"f", ["int"], "void", true⟩
    ∧ staticMethodCall natEnv 0 [⟨"f", ["int"], "void", true⟩] [.vstr "x"]
        = .error .stopIteration :=
  ⟨rfl, rfl, rfl⟩

/-- C3 (amended): instance-method calls select the first overload whose
parameter count equals the converted-argument count and fail with the
wrapped error "Failed to call method unknown: No matching method found for
N arguments" when none matches; static `MethodProxy` calls select the
first overload passing `matches_signature` (arity equality plus the
`int`/`java.lang.String` type-compatibility heuristic against the original
arguments) and raise a bare `StopIteration` when none passes. -/
theorem overload_selection_spec {H M : Type} (env : ProxyEnv H M) (jobject jclass : H)
    (overloads : List JavaMethod) (args jArgs : List (PyVal H))
    (hconv : args.mapM (toJava env.toTCEnv) = .ok jArgs) :
    (∀ cand, overloads.find? (fun o => o.parameters.length == jArgs.length) = some cand →
        cand.parameters.length = jArgs.length
        ∧ instanceMethodCall env jobject overloads args
            = instanceInvokeSelected env jobject cand jArgs)
    ∧ (overloads.find? (fun o => o.parameters.length == jArgs.length) = none →
        instanceMethodCall env jobject overloads args
          = .error ("Failed to call method unknown: No matching method found for "
              ++ toString jArgs.length ++ " arguments"))
    ∧ (∀ cand, overloads.find? (fun o => matchesSignature o args jArgs) = some cand →
        matchesSignature cand args jArgs = true
        ∧ staticMethodCall env jclass overloads args
            = staticInvokeSelected env jclass cand jArgs)
    ∧ (overloads.find? (fun o => matchesSignature o args jArgs) = none →
        staticMethodCall env jclass overloads args = .error .stopIteration) := by
  refine ⟨?_, ?_, ?_, ?_⟩
  · intro cand hf
    have hp := List.find?_some hf
    refine ⟨by simpa using hp, ?_⟩
    simp only [instanceMethodCall, hconv, hf]
  · intro hf
    simp only [instanceMethodCall, hconv, hf]
  · intro cand hf
    have hp := List.find?_some hf
    refine ⟨by simpa using hp, ?_⟩
    simp only [staticMethodCall, hconv, hf]
  · intro hf
    simp only [staticMethodCall, hconv, hf]

/-- Witness for C3 (amended): a two-overload set called with one int
argument selects the one-parameter overload on the instance path. -/
theorem overload_selection_witness :
    ([.vint 1] : List (PyVal Nat)).mapM (toJava natEnv.toTCEnv) = .ok [.vhandle 5]
    ∧ ([⟨"f", ["int"], "void", false⟩, ⟨"f", ["int", "int"], "void", false⟩]
          : List JavaMethod).find?
        (fun o => o.parameters.length == ([.vhandle 5] : List (PyVal Nat)).length)
        = some ⟨"f", ["int"], "void", false⟩
    ∧ instanceMethodCall natEnv 0
        [⟨"f", ["int"], "void", false⟩, ⟨"f", ["int", "int"], "void", false⟩] [.vint 1]
        = instanceInvokeSelected natEnv 0 ⟨"f", ["int"], "void", false⟩ [.vhandle 5] :=
  ⟨rfl, rfl,
   ((overload_selection_spec natEnv 0 0
       [⟨"f", ["int"], "void", false⟩, ⟨"f", ["int", "int"], "void", false⟩]
       [.vint 1] [.vhandle 5] rfl).1 ⟨"f", ["int"], "void", false⟩ rfl).2⟩

end JvmPybind
